import Mathlib

/-!
Verification of the DICOM hierarchy extraction and raw-volume assembly engine
of the Naviget lambda functions repository.

The development shallowly embeds the algorithmic core of two source files:

* `src/rawfile/lambda_function.py` (`lambda_handler`): per-batch pixel-frame
  collection with a hard-coded required shape `(512, 512)`, axis-0
  concatenation of the accepted frames, first-write-wins metadata
  consolidation, derivation of `output_dimensions` from the assembled array
  shape, and the top-level loop over SNS records.
* `src/dicomfilehandler/series_extract.py` (`process_dicom_files`,
  `extract_patient_data_from_dicom`): series-record aggregation with study-id
  sentinel filtering and first-wins series dedup, numeric field coercion, and
  patient-record extraction with patient-id dedup and caret name splitting.

External collaborators (S3, Supabase, SNS, pydicom decoding itself) are
boundary I/O: files arrive here as already-parsed attribute views, and the
storage/database/notification calls are assumed to succeed, matching the
spec's scoping of the core.  Wall-clock timestamps and `uuid4` draws are
modelled as explicit parameters / a deterministic fresh-name supply, since no
verified property inspects their values beyond freshness.
-/

namespace Naviget

/-! ### Association-list primitives

Python `dict` membership (`tag not in combined_metadata`) and insertion used
by the metadata merge loop of `lambda_handler` (lines 244-250).  A dict is
modelled as an association list in insertion order; `alookup` returns the
binding for a key, scanning left to right. -/

def alookup {α : Type} : List (String × α) → String → Option α
  | [], _ => none
  | (k, v) :: rest, key => if key = k then some v else alookup rest key

/-- First-defined choice on options (Python short-circuit over the merge). -/
def firstSome {α : Type} (o₁ o₂ : Option α) : Option α :=
  match o₁ with
  | some v => some v
  | none => o₂

/-- One iteration of `if tag not in combined_metadata: combined_metadata[tag] = value`
(`lambda_function.py` lines 248-250): insert only when the key is absent;
Python dict insertion appends at the end of iteration order. -/
def insertNew {α : Type} (m : List (String × α)) (kv : String × α) : List (String × α) :=
  if (alookup m kv.1).isSome then m else m ++ [kv]

/-- Merge one file's metadata mapping into the accumulator, key by key. -/
def mergeFile {α : Type} (acc file : List (String × α)) : List (String × α) :=
  file.foldl insertNew acc

/-- The whole-batch metadata consolidation: fold the per-file mappings in
file-encounter order into an initially empty `combined_metadata`. -/
def consolidateMeta {α : Type} (files : List (List (String × α))) : List (String × α) :=
  files.foldl mergeFile []

/-! ### Pixel frames and the rawfile batch pipeline -/

/-- A 2D pixel grid (`dicom_dataset.pixel_array` for a single-frame file),
as a list of rows.  numpy arrays are rectangular; the embedding does not
enforce this because no verified property depends on rows beyond the first. -/
abbrev Frame := List (List Int)

/-- numpy `.shape` of a 2D array: `(rows, cols)`. -/
def frameShape (p : Frame) : Nat × Nat := (p.length, (p.headD []).length)

/-- One non-folder S3 object of the batch after `pydicom.dcmread`:
the optional pixel grid (`hasattr(dicom_dataset, "PixelData")`) and the
result of `process_dicom_metadata` (values abstracted over a type `α`,
instantiated at `Int` for concrete batches). -/
structure RawDicomFile where
  pixel : Option Frame
  meta : List (String × Int)
deriving DecidableEq

/-- The frames appended to `combined_pixel_data`: exactly the pixel arrays
whose shape equals the hard-coded `valid_shape = (512, 512)`, in
file-encounter order (`lambda_function.py` lines 234-242). -/
def acceptedFrames (files : List RawDicomFile) : List Frame :=
  files.filterMap fun f =>
    f.pixel.bind fun p => if frameShape p = (512, 512) then some p else none

/-- The shapes logged by `"Skipping file with invalid pixel shape: ..."`,
one per present-but-mismatched pixel array, in encounter order. -/
def shapeWarnings (files : List RawDicomFile) : List (Nat × Nat) :=
  files.filterMap fun f =>
    f.pixel.bind fun p => if frameShape p = (512, 512) then none else some (frameShape p)

structure Dims where
  width : Nat
  height : Nat
  depth : Nat
deriving DecidableEq

/-- `output_dimensions` (`lambda_function.py` lines 284-288) computed from a
non-`None` assembled array: `width = shape[1]`, `height = shape[0]`,
`depth = shape[2] if len(shape) > 2 else 1`. -/
def outputDimensions (shape : List Nat) : Dims :=
  { width := shape.getD 1 0
    height := shape.getD 0 0
    depth := if 2 < shape.length then shape.getD 2 0 else 1 }

/-- numpy shape of the result of `np.concatenate(frames, axis=0)` over 2D
frames: still a 2D array, `[total rows, cols of the first row]`. -/
def combinedShape (rows : List (List Int)) : List Nat :=
  [rows.length, (rows.headD []).length]

/-- The Python exception escaping the per-batch body.  With zero accepted
frames `combined_pixel_data` stays an empty list (not `None`), so
`combined_pixel_data.tofile(raw_file)` raises `AttributeError` (the cleanup
`finally` then raises `FileNotFoundError` on the never-written metadata file;
either way the exception reaches the top-level handler). -/
inductive PyError where
  | attributeError
deriving DecidableEq

/-- Successful per-batch output: the assembled rows written to the `.raw`
file (row-major, frame-major, values untouched), the derived dimensions, the
consolidated metadata and the logged shape warnings. -/
structure BatchOut where
  rawRows : List (List Int)
  dims : Dims
  meta : List (String × Int)
  warnings : List (Nat × Nat)
deriving DecidableEq

/-- The per-SNS-record body of `lambda_handler` (lines 214-330) restricted to
its algorithmic content.  `np.concatenate` over the accepted `(512,512)`
frames cannot fail, so the `combined_pixel_data = None` branch is
unreachable here; the zero-accepted-frames case raises (see `PyError`). -/
def processBatch (files : List RawDicomFile) : Except PyError BatchOut :=
  let accepted := acceptedFrames files
  if accepted.isEmpty then
    .error .attributeError
  else
    let rows := accepted.flatten
    .ok { rawRows := rows
          dims := outputDimensions (combinedShape rows)
          meta := consolidateMeta (files.map (·.meta))
          warnings := shapeWarnings files }

/-- Rows actually written to the raw file (nothing on the exception path). -/
def rawRowsOf : Except PyError BatchOut → List (List Int)
  | .ok o => o.rawRows
  | .error _ => []

/-- Dimensions recorded in the metadata JSON (none on the exception path). -/
def batchDims : Except PyError BatchOut → Option Dims
  | .ok o => some o.dims
  | .error _ => none

/-- Result of one invocation: HTTP-ish status code, the batch outputs
produced, and the error notifications published via SNS. -/
structure HandlerResult where
  statusCode : Nat
  outputs : List BatchOut
  errorNotes : List String
deriving DecidableEq

/-- The loop `for record in event["Records"]` of `lambda_handler`.  An empty
S3 listing sends the "No Files Found" notification and returns 400
immediately (lines 201-212); an exception escaping a batch body is caught
only by the top-level handler, which returns 500 without sending any
notification and without touching the remaining records (lines 375-380). -/
def runRecords : List (List RawDicomFile) → List BatchOut → List String → HandlerResult
  | [], outs, notes => { statusCode := 200, outputs := outs, errorNotes := notes }
  | r :: rs, outs, notes =>
    if r.isEmpty then
      { statusCode := 400, outputs := outs, errorNotes := notes ++ ["No Files Found"] }
    else
      match processBatch r with
      | .ok out => runRecords rs (outs ++ [out]) notes
      | .error _ => { statusCode := 500, outputs := outs, errorNotes := notes }

/-- `lambda_handler` over the SNS records of one event, each record carrying
the non-folder files listed under its extracted-folder prefix. -/
def lambda_handler (records : List (List RawDicomFile)) : HandlerResult :=
  runRecords records [] []

/-! ### `series_extract.py`: attribute views and Python value coercions -/

/-- A scalar DICOM attribute value as seen by the aggregation code: an
integer-like value (pydicom `IS`, plain ints; the numeric defaults `0` and
`0.0`, whose truthiness and coercion behaviour coincide, are both modelled as
`int 0`) or a string-like value. -/
inductive DVal where
  | int : Int → DVal
  | str : String → DVal
deriving DecidableEq

/-- Python truthiness for the modelled values (`if series_number ...`). -/
def pyTruthy : DVal → Bool
  | .int n => n != 0
  | .str s => s != ""

/-- Value of a nonempty digit string. -/
def digitsVal (l : List Char) : Int :=
  Int.ofNat (l.foldl (fun acc c => acc * 10 + (c.toNat - 48)) 0)

/-- Python `int(str)`: strip surrounding spaces, optional sign, then a
nonempty run of digits; anything else raises `ValueError` (`none`). -/
def pyIntOfChars (l : List Char) : Option Int :=
  let t := ((l.dropWhile (· = ' ')).reverse.dropWhile (· = ' ')).reverse
  match t with
  | '-' :: rest =>
      if rest ≠ [] ∧ rest.all Char.isDigit then some (-(digitsVal rest)) else none
  | '+' :: rest =>
      if rest ≠ [] ∧ rest.all Char.isDigit then some (digitsVal rest) else none
  | _ => if t ≠ [] ∧ t.all Char.isDigit then some (digitsVal t) else none

/-- Python `int(x)` on the modelled values (`none` models a raised error). -/
def pyInt : DVal → Option Int
  | .int n => some n
  | .str s => pyIntOfChars s.toList

/-- Does Python `float(x)` succeed on the modelled values?  For strings:
optional sign, digits with at most one decimal point and at least one digit
(exponent/`inf`/`nan` spellings are out of the modelled attribute space). -/
def pyFloatOk : DVal → Bool
  | .int _ => true
  | .str s =>
      let t := (((s.toList).dropWhile (· = ' ')).reverse.dropWhile (· = ' ')).reverse
      let t := match t with
        | '+' :: r => r
        | '-' :: r => r
        | r => r
      (t.count '.') ≤ 1 && t.any Char.isDigit && t.all (fun c => c.isDigit || c = '.')

/-- The attributes `process_dicom_files` / `extract_patient_data_from_dicom`
read from one parsed file; `none` is a genuinely absent tag (so that
`dicom.get(tag, default)` returns the default). -/
structure DAttrs where
  studyId : Option String := none
  seriesId : Option String := none
  modality : Option String := none
  seriesDescription : Option String := none
  seriesNumber : Option DVal := none
  sliceThickness : Option DVal := none
  numberOfSlices : Option DVal := none
  imageOrientation : Option String := none
  pixelSpacing : Option String := none
  manufacturer : Option String := none
  manufacturerModelName : Option String := none
  patientName : Option String := none
  patientId : Option String := none
  birthDate : Option String := none
  sex : Option String := none
deriving DecidableEq

/-- One file of the directory walk: unreadable (`pydicom.dcmread` raised —
the per-file `except` skips it) or an attribute view. -/
inductive DItem where
  | unreadable : DItem
  | file : DAttrs → DItem
deriving DecidableEq

/-- `dicom.get(tag, "None")`: the string sentinel used for absent tags. -/
def sAttr (o : Option String) : String := o.getD "None"

/-- ASCII lowering of one character (the identifiers compared against the
sentinel `"none"` are ASCII UIDs, so Python `str.lower()` restricted to
ASCII is faithful here). -/
def lowerChar (c : Char) : Char :=
  if 'A' ≤ c ∧ c ≤ 'Z' then Char.ofNat (c.toNat + 32) else c

/-- Python `str.lower()` on the modelled identifier strings. -/
def pyLower (s : String) : String := ⟨s.toList.map lowerChar⟩

/-- One row of the hierarchy list built by `process_dicom_files`.
`slice_thickness` keeps the source value whose `float()` conversion
succeeded (its numeric reading is never consumed downstream). -/
structure SeriesRec where
  series_upload_id : String
  series_id : String
  study_id : String
  dicom_series_id : String
  modality : String
  series_description : String
  series_number : Option Int
  slice_thickness : Option DVal
  number_of_slices : Option Int
  image_orientation : String
  pixel_spacing : String
  manufacturer : String
  manufacturer_model_name : String
  created_at : String
  user_id : String
  file_id : String
  patient_name : String
deriving DecidableEq

/-- `int(v) if v else None` where a raised coercion error aborts the whole
record construction: outer `none` = raised, `some none` = field null. -/
def coerceIntField (v : DVal) : Option (Option Int) :=
  if pyTruthy v then (pyInt v).map some else some none

/-- `float(v) if v else None`, same failure discipline as `coerceIntField`. -/
def coerceFloatField (v : DVal) : Option (Option DVal) :=
  if pyTruthy v then (if pyFloatOk v then some (some v) else none) else some none

/-- The record literal appended by `process_dicom_files` (lines 50-69).
Returns `none` when one of the `int()`/`float()` coercions raises, in which
case the per-file `except` swallows the error and the file contributes
nothing.  `now` stands for `datetime.utcnow().isoformat()`. -/
def mkSeriesRecord (userId uploadId now : String) (a : DAttrs) : Option SeriesRec :=
  let sid := sAttr a.seriesId
  match coerceIntField (a.seriesNumber.getD (.int 0)),
        coerceFloatField (a.sliceThickness.getD (.int 0)),
        coerceIntField (a.numberOfSlices.getD (.int 0)) with
  | some sn, some st, some ns =>
      some { series_upload_id := sid ++ "_" ++ uploadId
             series_id := sid
             study_id := sAttr a.studyId
             dicom_series_id := sAttr a.seriesId
             modality := sAttr a.modality
             series_description := sAttr a.seriesDescription
             series_number := sn
             slice_thickness := st
             number_of_slices := ns
             image_orientation := sAttr a.imageOrientation
             pixel_spacing := sAttr a.pixelSpacing
             manufacturer := sAttr a.manufacturer
             manufacturer_model_name := sAttr a.manufacturerModelName
             created_at := now
             user_id := userId
             file_id := uploadId
             patient_name := sAttr a.patientName }
  | _, _, _ => none

/-- The study filter of lines 44-46.  (In the source the skip happens by
raising `NameError` on the undefined `patient_id` inside the diagnostic
print, which the per-file `except` catches; the observable effect is exactly
a skip.)  `not study_id or study_id.lower() == "none"`. -/
def validStudy (a : DAttrs) : Bool :=
  let s := sAttr a.studyId
  !(s == "" || pyLower s == "none")

/-- First hierarchy entry with the given `series_id`
(`next((entry for entry in hierarchy if entry["series_id"] == series_id), None)`). -/
def firstWith (s : String) : List SeriesRec → Option SeriesRec
  | [] => none
  | r :: rest => if r.series_id = s then some r else firstWith s rest

/-- One iteration of the file loop of `process_dicom_files`: study filter,
then first-wins series dedup, then record construction (whose coercion
failure skips the file). -/
def seriesStep (userId uploadId now : String) (h : List SeriesRec) (it : DItem) :
    List SeriesRec :=
  match it with
  | .unreadable => h
  | .file a =>
    if validStudy a then
      if (firstWith (sAttr a.seriesId) h).isSome then h
      else
        match mkSeriesRecord userId uploadId now a with
        | some r => h ++ [r]
        | none => h
    else h

/-- `process_dicom_files(extracted_folder, user_id, upload_id)`: fold the
walk-ordered file list into the hierarchy list. -/
def process_dicom_files (userId uploadId now : String) (items : List DItem) :
    List SeriesRec :=
  items.foldl (seriesStep userId uploadId now) []

/-- The record a file would contribute if it reaches the append: readable,
passes the study filter, and all numeric coercions succeed. -/
def seriesContrib (userId uploadId now : String) : DItem → Option SeriesRec
  | .unreadable => none
  | .file a => if validStudy a then mkSeriesRecord userId uploadId now a else none

/-! ### `extract_patient_data_from_dicom` -/

/-- Python `str.split(sep)` for a one-character separator: no collapsing of
adjacent separators, and `"".split(sep) == [""]`; the result is never empty. -/
def pySplit (l : List Char) (sep : Char) : List (List Char) :=
  match l with
  | [] => [[]]
  | c :: rest =>
    match pySplit rest sep with
    | [] => [[c]]
    | t :: ts => if c = sep then [] :: t :: ts else (c :: t) :: ts

/-- A deduplicated anonymized patient row (lines 125-137). -/
structure PatientRec where
  patient_id : String
  dicom_patient_id : String
  first_name : List Char
  last_name : List Char
  birth_date : Option String
  sex : String
  patient_user_id : String
  created_at : String
  updated_at : String
  series_upload_id : String
deriving DecidableEq

/-- Deterministic stand-in for one `uuid.uuid4()` draw. -/
def freshUuid (c : Nat) : String := "uuid-" ++ toString c

/-- Loop state of `extract_patient_data_from_dicom`: the `seen_patients`
set (insertion order is irrelevant, only membership is consulted), the
uuid-supply counter, and the accumulated `patients` list. -/
structure PatState where
  seen : List String
  ctr : Nat
  recs : List PatientRec

/-- Does the file pass the series guard of line 95
(`if not series_id or series_id.lower() == "none"`)? -/
def usableSeriesB (a : DAttrs) : Bool :=
  match a.seriesId with
  | none => false
  | some s => !(s == "" || pyLower s == "none")

/-- One iteration of the file loop of `extract_patient_data_from_dicom`
(lines 88-141).  The anonymous `PatientID` default argument and the fresh
`patient_id` are both drawn unconditionally for every file passing the
series guard (Python evaluates `dicom.get`'s default eagerly, and line 114
precedes the dedup check), so the counter advances by two even for files
that turn out to be duplicates. -/
def patientStep (userId uploadId now : String) (st : PatState) (it : DItem) : PatState :=
  match it with
  | .unreadable => st
  | .file a =>
    match a.seriesId with
    | none => st
    | some sid =>
      if sid = "" ∨ pyLower sid = "none" then st
      else
        let dicom_patient_id := a.patientId.getD ("ANON_" ++ freshUuid st.ctr)
        let nm := (a.patientName.getD "ANONYMOUS^PATIENT").toList
        let parts := pySplit nm '^'
        let first_name := if (parts.headD []).isEmpty then "ANONYMOUS".toList
                          else parts.headD []
        let last_name := if (parts.getLastD []).isEmpty then "PATIENT".toList
                         else parts.getLastD []
        let birth_date := match a.birthDate with
          | some b => if b = "" then none else some b
          | none => none
        let sex0 := a.sex.getD "A"
        let sex := if sex0 = "M" ∨ sex0 = "F" ∨ sex0 = "O" ∨ sex0 = "A" then sex0 else "A"
        let rec0 : PatientRec :=
          { patient_id := freshUuid (st.ctr + 1)
            dicom_patient_id := dicom_patient_id
            first_name := first_name
            last_name := last_name
            birth_date := birth_date
            sex := sex
            patient_user_id := userId
            created_at := now
            updated_at := now
            series_upload_id := sid ++ "_" ++ uploadId }
        if dicom_patient_id ∈ st.seen then
          { seen := st.seen, ctr := st.ctr + 2, recs := st.recs }
        else
          { seen := st.seen ++ [dicom_patient_id], ctr := st.ctr + 2,
            recs := st.recs ++ [rec0] }

/-- `extract_patient_data_from_dicom(extracted_folder, user_id, upload_id)`:
fold the walk-ordered file list and return the `patients` list. -/
def extract_patient_data_from_dicom (userId uploadId now : String)
    (items : List DItem) : List PatientRec :=
  (items.foldl (patientStep userId uploadId now) ⟨[], 0, []⟩).recs

/-- First-wins dedup step over already-built records, used to relate
`process_dicom_files` to the per-file contribution view. -/
def dedupStep (h : List SeriesRec) (r : SeriesRec) : List SeriesRec :=
  if (firstWith r.series_id h).isSome then h else h ++ [r]

/-! ### Concrete inputs used by counterexamples and witnesses -/

/-- A well-shaped all-zero frame, `pixel_array.shape == (512, 512)`. -/
def frame512 : Frame := List.replicate 512 (List.replicate 512 0)

/-- A mismatched frame of shape `(256, 256)`. -/
def frame256 : Frame := List.replicate 256 (List.replicate 256 0)

/-- An unsigned-range frame of shape `(512, 512)` whose maximum value 70000
exceeds the signed-16-bit bound 32767. -/
def frame70000 : Frame := List.replicate 512 (List.replicate 512 70000)

def file512 : RawDicomFile := { pixel := some frame512, meta := [] }

def file256 : RawDicomFile := { pixel := some frame256, meta := [] }

def file70000 : RawDicomFile := { pixel := some frame70000, meta := [] }

/-- A file with valid study and series identifiers. -/
def aGood : DAttrs :=
  { studyId := some "S1", seriesId := some "X1", patientId := some "P1",
    patientName := some "DOE^JOHN" }

/-- Same patient identifier as `aGood` but a different series. -/
def aGoodOtherSeries : DAttrs :=
  { studyId := some "S1", seriesId := some "Y1", patientId := some "P1",
    patientName := some "DOE^JOHN" }

/-- A truthy, non-numeric `SeriesNumber`: `int("abc")` raises `ValueError`. -/
def aBadSN : DAttrs :=
  { studyId := some "S1", seriesId := some "X2", seriesNumber := some (.str "abc") }

/-- A file with absent `StudyInstanceUID` (sentinel default `"None"`). -/
def aNoStudy : DAttrs := { seriesId := some "X3" }

/-- A file with a valid patient identifier but no usable series identifier. -/
def aNoSeries : DAttrs := { studyId := some "S1", patientId := some "P2" }

/-- Valid identifiers, every numeric attribute absent (falsy defaults). -/
def aFalsy : DAttrs := { studyId := some "S1", seriesId := some "X4" }

/-- Present but empty `PatientName`: the caret-less edge case. -/
def aEmptyName : DAttrs :=
  { studyId := some "S1", seriesId := some "X1", patientId := some "P1",
    patientName := some "" }

/-- Present caret-less nonempty `PatientName`. -/
def aJohn : DAttrs :=
  { seriesId := some "X1", patientId := some "P1", patientName := some "JOHN" }

/-- The record `process_dicom_files` emits for `aFalsy` with
`userId = "u"`, `uploadId = "f"`, `now = "t"`. -/
def rFalsy : SeriesRec :=
  { series_upload_id := "X4_f", series_id := "X4", study_id := "S1",
    dicom_series_id := "X4", modality := "None", series_description := "None",
    series_number := none, slice_thickness := none, number_of_slices := none,
    image_orientation := "None", pixel_spacing := "None", manufacturer := "None",
    manufacturer_model_name := "None", created_at := "t", user_id := "u",
    file_id := "f", patient_name := "None" }

/-! ## Theorems -/

/-! ### C4: metadata consolidation is first-write-wins -/

theorem firstSome_none_right {α : Type} (o : Option α) : firstSome o none = o := by
  cases o <;> rfl

theorem firstSome_assoc {α : Type} (o₁ o₂ o₃ : Option α) :
    firstSome (firstSome o₁ o₂) o₃ = firstSome o₁ (firstSome o₂ o₃) := by
  cases o₁ <;> rfl

theorem alookup_append {α : Type} (l₁ l₂ : List (String × α)) (k : String) :
    alookup (l₁ ++ l₂) k = firstSome (alookup l₁ k) (alookup l₂ k) := by
  induction l₁ with
  | nil => rfl
  | cons kv rest ih =>
    obtain ⟨k', v⟩ := kv
    by_cases h : k = k' <;> simp [alookup, h, ih, firstSome]

theorem alookup_insertNew {α : Type} (m : List (String × α)) (kv : String × α)
    (k : String) :
    alookup (insertNew m kv) k
      = firstSome (alookup m k) (if k = kv.1 then some kv.2 else none) := by
  obtain ⟨k1, v1⟩ := kv
  unfold insertNew
  cases hm : alookup m (k1, v1).1 with
  | some v =>
    simp only [hm, Option.isSome_some, if_true]
    by_cases hk : k = (k1, v1).1
    · subst hk
      simp [hm, firstSome]
    · simp [hk, firstSome_none_right]
  | none =>
    simp only [hm, Option.isSome_none, Bool.false_eq_true, if_false]
    rw [alookup_append]
    by_cases hk : k = (k1, v1).1 <;> simp [alookup, hk]

theorem alookup_mergeFile {α : Type} (file acc : List (String × α)) (k : String) :
    alookup (mergeFile acc file) k = firstSome (alookup acc k) (alookup file k) := by
  induction file generalizing acc with
  | nil => simp [mergeFile, alookup, firstSome_none_right]
  | cons kv rest ih =>
    obtain ⟨k', v⟩ := kv
    show alookup (mergeFile (insertNew acc (k', v)) rest) k = _
    rw [ih, alookup_insertNew, firstSome_assoc]
    by_cases hk : k = k' <;> simp [alookup, hk, firstSome]

theorem alookup_consolidate_fold {α : Type} (ms : List (List (String × α)))
    (acc : List (String × α)) (k : String) :
    alookup (ms.foldl mergeFile acc) k
      = firstSome (alookup acc k) (ms.findSome? (fun m => alookup m k)) := by
  induction ms generalizing acc with
  | nil => simp [firstSome_none_right]
  | cons m rest ih =>
    show alookup (rest.foldl mergeFile (mergeFile acc m)) k = _
    rw [ih, alookup_mergeFile, firstSome_assoc]
    cases h : alookup m k <;> simp [List.findSome?, h, firstSome]

/-- Claim C4 (confirmed): metadata consolidation is first-write-wins — for
every ordered sequence of per-file attribute mappings and every key, the
consolidated mapping binds the key to the value found in the first mapping of
the sequence that contains it, so no later mapping overwrites an already-set
key (in particular `[{A:1, B:2}, {A:99, C:3}]` consolidates to
`{A:1, B:2, C:3}`). -/
theorem C4_first_write_wins {α : Type} (ms : List (List (String × α))) (k : String) :
    alookup (consolidateMeta ms) k = ms.findSome? (fun m => alookup m k) := by
  unfold consolidateMeta
  rw [alookup_consolidate_fold]
  rfl

/-! ### C1: no pixel normalization is performed -/

theorem rawRows_eq_flatten (files : List RawDicomFile) :
    rawRowsOf (processBatch files) = (acceptedFrames files).flatten := by
  unfold processBatch
  by_cases h : (acceptedFrames files).isEmpty
  · have : acceptedFrames files = [] := List.isEmpty_iff.mp h
    simp [h, rawRowsOf, this]
  · simp [h, rawRowsOf]

/-- Claim C1 (corrected: the code has no pixel normalizer): the raw output
rows are exactly the accepted input frames, concatenated unchanged — pixel
values pass through identically whether or not they lie within the
signed-16-bit range; no `scaleFactor` rescale ever happens. -/
theorem C1_pixels_identity (files : List RawDicomFile) :
    rawRowsOf (processBatch files) = (acceptedFrames files).flatten :=
  rawRows_eq_flatten files

/-! ### C2, C3: shape filtering, assembled shape and output dimensions -/

theorem frameShape_of_mem_accepted {files : List RawDicomFile} {p : Frame}
    (h : p ∈ acceptedFrames files) : frameShape p = (512, 512) := by
  obtain ⟨f, _, hf⟩ := List.mem_filterMap.mp h
  cases hpx : f.pixel with
  | none => rw [hpx] at hf; simp at hf
  | some q =>
    rw [hpx] at hf
    by_cases hs : frameShape q = (512, 512)
    · simp only [Option.some_bind, if_pos hs] at hf
      cases hf
      exact hs
    · simp [hs] at hf

theorem sum_map_length_const {l : List Frame} {c : Nat}
    (h : ∀ p ∈ l, p.length = c) : (l.map List.length).sum = c * l.length := by
  induction l with
  | nil => simp
  | cons p rest ih =>
    simp only [List.map_cons, List.sum_cons, List.length_cons]
    rw [h p (by simp), ih (fun q hq => h q (by simp [hq]))]
    ring

theorem combinedShape_flatten {l : List Frame}
    (hall : ∀ p ∈ l, frameShape p = (512, 512)) (hne : l ≠ []) :
    combinedShape l.flatten = [512 * l.length, 512] := by
  obtain ⟨p, rest, rfl⟩ := List.exists_cons_of_ne_nil hne
  have hp := hall p (by simp)
  have hplen : p.length = 512 := by
    simpa [frameShape] using congrArg Prod.fst hp
  obtain ⟨r, prows, rfl⟩ : ∃ r prows, p = r :: prows := by
    cases p with
    | nil => simp at hplen
    | cons r prows => exact ⟨r, prows, rfl⟩
  have h1 : ((r :: prows) :: rest).flatten.length = 512 * ((r :: prows) :: rest).length := by
    rw [List.length_flatten]
    exact sum_map_length_const fun q hq => by
      simpa [frameShape] using congrArg Prod.fst (hall q hq)
  have h2 : ((r :: prows) :: rest).flatten.headD [] = r := by
    simp [List.flatten_cons]
  have h3 : r.length = 512 := by
    simpa [frameShape] using congrArg Prod.snd hp
  unfold combinedShape
  rw [h1, h2, h3]

/-- Claim C2 (corrected: `np.concatenate` adds no leading axis): exactly the
pixel frames whose shape equals `(512, 512)` are accepted, in file-encounter
order; every other frame is excluded with a logged shape warning while the
remaining frames are still assembled; but the assembled result of `N`
accepted frames is the axis-0 concatenation of shape `(512 * N, 512)`, not a
stacked volume of shape `(N, 512, 512)`. -/
theorem C2_volume_assembly (files : List RawDicomFile) :
    acceptedFrames files
      = (files.filterMap (·.pixel)).filter (fun p => decide (frameShape p = (512, 512)))
    ∧ shapeWarnings files
      = (((files.filterMap (·.pixel)).filter
            (fun p => decide (¬ frameShape p = (512, 512)))).map frameShape)
    ∧ (acceptedFrames files ≠ [] →
        combinedShape (rawRowsOf (processBatch files))
          = [512 * (acceptedFrames files).length, 512]) := by
  refine ⟨?_, ?_, ?_⟩
  · induction files with
    | nil => rfl
    | cons f rest ih =>
      unfold acceptedFrames at ih ⊢
      cases hpx : f.pixel with
      | none => simp [List.filterMap_cons, hpx, ih]
      | some q =>
        by_cases hs : frameShape q = (512, 512) <;>
          simp [List.filterMap_cons, hpx, hs, ih, List.filter_cons]
  · induction files with
    | nil => rfl
    | cons f rest ih =>
      unfold shapeWarnings at ih ⊢
      cases hpx : f.pixel with
      | none => simp [List.filterMap_cons, hpx, ih]
      | some q =>
        by_cases hs : frameShape q = (512, 512) <;>
          simp [List.filterMap_cons, hpx, hs, ih, List.filter_cons]
  · intro hne
    have hrows : rawRowsOf (processBatch files) = (acceptedFrames files).flatten :=
      rawRows_eq_flatten files
    rw [hrows]
    exact combinedShape_flatten (fun p hp => frameShape_of_mem_accepted hp) hne

set_option maxRecDepth 8192 in
/-- Witness for C2 at a concrete batch: one `(512,512)` frame plus one
`(256,256)` frame assemble to a 2D array of shape `(512, 512)` after the
mismatch is excluded. -/
theorem C2_volume_assembly_witness :
    combinedShape (rawRowsOf (processBatch [file512, file256]))
      = [512 * (acceptedFrames [file512, file256]).length, 512] :=
  (C2_volume_assembly [file512, file256]).2.2 (by decide)

set_option maxRecDepth 8192 in
/-- Counterexample to claim C2 as stated: two accepted `(512,512)` frames
with one `(256,256)` frame in between assemble to shape `(1024, 512)`; the
claimed shape `(N, 512, 512) = (2, 512, 512)` is not produced. -/
theorem C2_no_leading_axis_counterexample :
    (acceptedFrames [file512, file256, file512]).length = 2
    ∧ shapeWarnings [file512, file256, file512] = [(256, 256)]
    ∧ combinedShape (rawRowsOf (processBatch [file512, file256, file512])) = [1024, 512]
    ∧ ([1024, 512] : List Nat) ≠ [2, 512, 512] := by
  refine ⟨by decide, by decide, by decide, by decide⟩

/-- Claim C3 (corrected: the code transposes the roles of the shape
entries): `output_dimensions` is computed as `width = shape[1]`,
`height = shape[0]`, `depth = shape[2] if rank > 2 else 1`; on the 2D array
the pipeline actually assembles from `N` accepted frames this yields
`{width: 512, height: 512 * N, depth: 1}` — and on a hypothetical grid of
shape `(10, 512, 512)` it would yield `{width: 512, height: 10, depth: 512}`,
not `{width: 512, height: 512, depth: 10}`. -/
theorem C3_output_dimensions (a b c : Nat) (files : List RawDicomFile) :
    outputDimensions [a, b] = { width := b, height := a, depth := 1 }
    ∧ outputDimensions [a, b, c] = { width := b, height := a, depth := c }
    ∧ (acceptedFrames files ≠ [] →
        batchDims (processBatch files)
          = some { width := 512, height := 512 * (acceptedFrames files).length,
                   depth := 1 }) := by
  refine ⟨rfl, rfl, ?_⟩
  intro hne
  have hempty : (acceptedFrames files).isEmpty = false := by
    simpa [List.isEmpty_iff] using hne
  have hdims : batchDims (processBatch files)
      = some (outputDimensions (combinedShape (acceptedFrames files).flatten)) := by
    unfold processBatch batchDims
    simp [hempty]
  rw [hdims, combinedShape_flatten (fun p hp => frameShape_of_mem_accepted hp) hne]
  rfl

set_option maxRecDepth 8192 in
/-- Witness for C3 at a concrete batch of one accepted frame. -/
theorem C3_output_dimensions_witness :
    batchDims (processBatch [file512])
      = some { width := 512, height := 512 * (acceptedFrames [file512]).length,
               depth := 1 } :=
  (C3_output_dimensions 0 0 0 [file512]).2.2 (by decide)

/-- Counterexample to claim C3 as stated: on a grid of shape
`(10, 512, 512)` the code computes `{width: 512, height: 10, depth: 512}`,
not the claimed `{width: 512, height: 512, depth: 10}`. -/
theorem C3_height_depth_counterexample :
    outputDimensions [10, 512, 512] = { width := 512, height := 10, depth := 512 }
    ∧ outputDimensions [10, 512, 512]
        ≠ { width := 512, height := 512, depth := 10 } := by
  refine ⟨by decide, by decide⟩

/-! ### C6: zero valid frames crash the whole invocation -/

set_option maxRecDepth 8192 in
/-- Claim C6 (code bug): a batch with zero `(512,512)` frames leaves
`combined_pixel_data` as an empty Python list, so `.tofile` raises
`AttributeError`; the exception is caught only at the top level, the
invocation returns 500 with no error notification, and the sibling record
(here a perfectly good `(512,512)` batch) is never processed — instead of
the claimed notify-skip-and-continue behaviour. -/
theorem C6_zero_valid_frames_crash :
    lambda_handler [[file256], [file512]]
      = { statusCode := 500, outputs := [], errorNotes := [] } := by
  decide

set_option maxRecDepth 8192 in
/-- Counterexample to claim C1 as stated: an unsigned grid of shape
`(512, 512)` with maximum value 70000 is written out still containing the
value 70000 — it is not rescaled so that the output maximum is 32767, and
the output is not within the signed-16-bit range. -/
theorem C1_no_rescale_counterexample :
    (70000 : Int) ∈ (rawRowsOf (processBatch [file70000])).flatten
      ∧ ¬ ((70000 : Int) ≤ 32767) := by
  constructor
  · decide
  · decide

/-! ### C5, C7, C9: series aggregation -/

theorem mkSeriesRecord_series_id {u f n : String} {a : DAttrs} {r : SeriesRec}
    (h : mkSeriesRecord u f n a = some r) : r.series_id = sAttr a.seriesId := by
  unfold mkSeriesRecord at h
  split at h
  · cases h
    rfl
  · cases h

theorem seriesStep_eq_dedup (u f n : String) (it : DItem) (h : List SeriesRec) :
    seriesStep u f n h it
      = match seriesContrib u f n it with
        | some r => dedupStep h r
        | none => h := by
  cases it with
  | unreadable => rfl
  | file a =>
    by_cases hv : validStudy a
    · cases hmk : mkSeriesRecord u f n a with
      | none => simp [seriesStep, seriesContrib, hv, hmk]
      | some r =>
        have hs : r.series_id = sAttr a.seriesId := mkSeriesRecord_series_id hmk
        simp [seriesStep, seriesContrib, dedupStep, hv, hmk, hs]
    · simp [seriesStep, seriesContrib, hv]

theorem seriesFold_eq_dedup (u f n : String) (items : List DItem) (h : List SeriesRec) :
    items.foldl (seriesStep u f n) h
      = (items.filterMap (seriesContrib u f n)).foldl dedupStep h := by
  induction items generalizing h with
  | nil => rfl
  | cons it rest ih =>
    rw [List.foldl_cons, List.filterMap_cons, seriesStep_eq_dedup]
    cases hc : seriesContrib u f n it with
    | none => simpa [hc] using ih _
    | some r => simpa [hc] using ih _

theorem firstWith_append (s : String) (l₁ l₂ : List SeriesRec) :
    firstWith s (l₁ ++ l₂) = firstSome (firstWith s l₁) (firstWith s l₂) := by
  induction l₁ with
  | nil => rfl
  | cons r rest ih =>
    by_cases hr : r.series_id = s <;> simp [firstWith, hr, ih, firstSome]

theorem firstWith_eq_none {s : String} {l : List SeriesRec} :
    firstWith s l = none ↔ ∀ r ∈ l, r.series_id ≠ s := by
  induction l with
  | nil => simp [firstWith]
  | cons r rest ih =>
    by_cases hr : r.series_id = s <;> simp [firstWith, hr, ih]

theorem dedupFold_pairwise (rs : List SeriesRec) (h : List SeriesRec)
    (hh : h.Pairwise (fun r₁ r₂ => r₁.series_id ≠ r₂.series_id)) :
    (rs.foldl dedupStep h).Pairwise (fun r₁ r₂ => r₁.series_id ≠ r₂.series_id) := by
  induction rs generalizing h with
  | nil => exact hh
  | cons r rest ih =>
    rw [List.foldl_cons]
    apply ih
    unfold dedupStep
    cases hf : firstWith r.series_id h with
    | some w => simpa [hf] using hh
    | none =>
      simp only [hf, Option.isSome_none, Bool.false_eq_true, if_false]
      rw [List.pairwise_append]
      refine ⟨hh, by simp, ?_⟩
      intro x hx y hy
      simp only [List.mem_singleton] at hy
      subst hy
      intro hxy
      exact (firstWith_eq_none.mp hf x hx) hxy

theorem dedupFold_firstWith (rs : List SeriesRec) (h : List SeriesRec) (s : String) :
    firstWith s (rs.foldl dedupStep h) = firstSome (firstWith s h) (firstWith s rs) := by
  induction rs generalizing h with
  | nil => simp [firstWith, firstSome_none_right]
  | cons r rest ih =>
    rw [List.foldl_cons, ih]
    unfold dedupStep
    cases hf : firstWith r.series_id h with
    | some w =>
      simp only [hf, Option.isSome_some, if_true]
      by_cases hr : r.series_id = s
      · subst hr
        simp [firstWith, hf, firstSome]
      · simp [firstWith, hr]
    | none =>
      simp only [hf, Option.isSome_none, Bool.false_eq_true, if_false]
      rw [firstWith_append, firstSome_assoc]
      by_cases hr : r.series_id = s <;> simp [firstWith, hr, firstSome]

/-- Claim C5 (confirmed): the hierarchy aggregator emits at most one
SeriesRecord per distinct `series_id`; the record retained for a series is
the one contributed by the first file that reaches the append for that
series; and appending a further file carrying an already-recorded
`series_id` leaves the hierarchy output unchanged. -/
theorem C5_series_dedup (u f n : String) (items : List DItem) (a : DAttrs) :
    (process_dicom_files u f n items).Pairwise
        (fun r₁ r₂ => r₁.series_id ≠ r₂.series_id)
    ∧ (∀ s, firstWith s (process_dicom_files u f n items)
        = firstWith s (items.filterMap (seriesContrib u f n)))
    ∧ ((firstWith (sAttr a.seriesId) (process_dicom_files u f n items)).isSome →
        process_dicom_files u f n (items ++ [DItem.file a])
          = process_dicom_files u f n items) := by
  refine ⟨?_, ?_, ?_⟩
  · unfold process_dicom_files
    rw [seriesFold_eq_dedup]
    exact dedupFold_pairwise _ [] (by simp)
  · intro s
    unfold process_dicom_files
    rw [seriesFold_eq_dedup, dedupFold_firstWith]
    rfl
  · intro hdup
    unfold process_dicom_files
    rw [List.foldl_append, List.foldl_cons, List.foldl_nil]
    show seriesStep u f n (process_dicom_files u f n items) (DItem.file a)
        = process_dicom_files u f n items
    unfold seriesStep
    by_cases hv : validStudy a
    · simp [hv, hdup]
    · simp [hv]

/-- Witness for C5: the same valid file twice yields a single record, and
re-appending a file with the already-recorded series changes nothing. -/
theorem C5_series_dedup_witness :
    (process_dicom_files "u" "f" "t" [DItem.file aGood]).Pairwise
        (fun r₁ r₂ => r₁.series_id ≠ r₂.series_id)
    ∧ process_dicom_files "u" "f" "t" ([DItem.file aGood] ++ [DItem.file aGood])
        = process_dicom_files "u" "f" "t" [DItem.file aGood] :=
  ⟨(C5_series_dedup "u" "f" "t" [DItem.file aGood] aGood).1,
   (C5_series_dedup "u" "f" "t" [DItem.file aGood] aGood).2.2 (by decide)⟩

/-- Claim C9 (confirmed): a file whose `StudyInstanceUID` is absent or equal
to the sentinel `"none"` (case-insensitively) contributes no SeriesRecord,
wherever it occurs, and processing of the surrounding files is unaffected —
the drop is per-file, never fatal to the batch. -/
theorem C9_study_sentinel (u f n : String) (l₁ l₂ : List DItem) (a : DAttrs)
    (h : a.studyId = none ∨ pyLower (sAttr a.studyId) = "none") :
    process_dicom_files u f n (l₁ ++ DItem.file a :: l₂)
      = process_dicom_files u f n (l₁ ++ l₂) := by
  unfold process_dicom_files
  rw [List.foldl_append, List.foldl_append, List.foldl_cons]
  have hv : validStudy a = false := by
    rcases h with h | h
    · simp [validStudy, sAttr, h, pyLower, lowerChar]
    · simp [validStudy, h]
  show List.foldl (seriesStep u f n)
      (seriesStep u f n (List.foldl (seriesStep u f n) [] l₁) (DItem.file a)) l₂ = _
  rw [show seriesStep u f n (List.foldl (seriesStep u f n) [] l₁) (DItem.file a)
      = List.foldl (seriesStep u f n) [] l₁ by simp [seriesStep, hv]]

/-- Witness for C9: a file with an absent study identifier in front of a
valid file drops out; the valid file is still processed. -/
theorem C9_study_sentinel_witness :
    process_dicom_files "u" "f" "t" ([] ++ DItem.file aNoStudy :: [DItem.file aGood])
      = process_dicom_files "u" "f" "t" ([] ++ [DItem.file aGood]) :=
  C9_study_sentinel "u" "f" "t" [] [DItem.file aGood] aNoStudy (Or.inl rfl)

/-- Claim C7 (corrected: a failing coercion drops the whole file): when a
numeric source field is falsy the corresponding record field is null and the
record is still emitted, but when `int()` raises on a truthy value the
per-file exception handler skips the file entirely — no SeriesRecord is
emitted for it, anywhere in the batch. -/
theorem C7_numeric_coercion (u f n : String) (a : DAttrs) (l₁ l₂ : List DItem) :
    (pyTruthy (a.seriesNumber.getD (.int 0)) = true →
      pyInt (a.seriesNumber.getD (.int 0)) = none →
      mkSeriesRecord u f n a = none)
    ∧ (∀ r, mkSeriesRecord u f n a = some r →
        (pyTruthy (a.seriesNumber.getD (.int 0)) = false → r.series_number = none)
        ∧ (pyTruthy (a.sliceThickness.getD (.int 0)) = false → r.slice_thickness = none)
        ∧ (pyTruthy (a.numberOfSlices.getD (.int 0)) = false → r.number_of_slices = none))
    ∧ (mkSeriesRecord u f n a = none →
        process_dicom_files u f n (l₁ ++ DItem.file a :: l₂)
          = process_dicom_files u f n (l₁ ++ l₂)) := by
  refine ⟨?_, ?_, ?_⟩
  · intro ht hi
    unfold mkSeriesRecord
    have : coerceIntField (a.seriesNumber.getD (.int 0)) = none := by
      simp [coerceIntField, ht, hi]
    rw [this]
  · intro r hr
    unfold mkSeriesRecord at hr
    split at hr
    · rename_i sn st ns hsn hst hns
      cases hr
      refine ⟨?_, ?_, ?_⟩
      · intro hf
        simp [coerceIntField, hf] at hsn
        simp [hsn]
      · intro hf
        simp [coerceFloatField, hf] at hst
        simp [hst]
      · intro hf
        simp [coerceIntField, hf] at hns
        simp [hns]
    · cases hr
  · intro hmk
    unfold process_dicom_files
    rw [List.foldl_append, List.foldl_append, List.foldl_cons]
    have hstep : ∀ h, seriesStep u f n h (DItem.file a) = h := by
      intro h
      unfold seriesStep
      by_cases hv : validStudy a
      · by_cases hdup : (firstWith (sAttr a.seriesId) h).isSome <;> simp [hv, hdup, hmk]
      · simp [hv]
    rw [hstep]

/-- Counterexample to claim C7 as stated: a file with the truthy,
non-coercible `SeriesNumber` string `"abc"` is skipped entirely — no
SeriesRecord (with or without a null field) is emitted for it. -/
theorem C7_coercion_failure_counterexample :
    process_dicom_files "u" "f" "t" [DItem.file aBadSN] = []
    ∧ pyTruthy (DVal.str "abc") = true
    ∧ pyInt (DVal.str "abc") = none := by
  refine ⟨by decide, by decide, by decide⟩

/-- Witness for C7: the falsy defaults produce a record with null numeric
fields; the non-coercible file contributes nothing even amid other files. -/
theorem C7_numeric_coercion_witness :
    mkSeriesRecord "u" "f" "t" aBadSN = none
    ∧ rFalsy.series_number = none
    ∧ process_dicom_files "u" "f" "t" ([] ++ DItem.file aBadSN :: [DItem.file aGood])
        = process_dicom_files "u" "f" "t" ([] ++ [DItem.file aGood]) :=
  ⟨(C7_numeric_coercion "u" "f" "t" aBadSN [] []).1 (by decide) (by decide),
   (((C7_numeric_coercion "u" "f" "t" aFalsy [] []).2.1 rFalsy (by decide)).1 (by decide)),
   (C7_numeric_coercion "u" "f" "t" aBadSN [] [DItem.file aGood]).2.2 (by decide)⟩

/-! ### C8, C10: patient extraction -/

theorem patientStep_inv (u f n : String) (st : PatState) (it : DItem)
    (h1 : st.seen = st.recs.map (·.dicom_patient_id))
    (h2 : st.recs.Pairwise (fun r₁ r₂ => r₁.dicom_patient_id ≠ r₂.dicom_patient_id)) :
    (patientStep u f n st it).seen
        = (patientStep u f n st it).recs.map (·.dicom_patient_id)
    ∧ (patientStep u f n st it).recs.Pairwise
        (fun r₁ r₂ => r₁.dicom_patient_id ≠ r₂.dicom_patient_id) := by
  cases it with
  | unreadable => exact ⟨h1, h2⟩
  | file a =>
    cases hsid : a.seriesId with
    | none =>
      simp only [patientStep, hsid]
      exact ⟨h1, h2⟩
    | some sid =>
      by_cases hg : sid = "" ∨ pyLower sid = "none"
      · simp only [patientStep, hsid, if_pos hg]
        exact ⟨h1, h2⟩
      · simp only [patientStep, hsid, if_neg hg]
        by_cases hmem : a.patientId.getD ("ANON_" ++ freshUuid st.ctr) ∈ st.seen
        · simp only [if_pos hmem]
          exact ⟨h1, h2⟩
        · simp only [if_neg hmem]
          constructor
          · simp [h1]
          · rw [List.pairwise_append]
            refine ⟨h2, by simp, ?_⟩
            intro x hx y hy
            simp only [List.mem_singleton] at hy
            subst hy
            intro hxy
            apply hmem
            rw [h1]
            exact List.mem_map.mpr ⟨x, hx, hxy⟩

theorem patientFold_inv (u f n : String) (items : List DItem) (st : PatState)
    (h1 : st.seen = st.recs.map (·.dicom_patient_id))
    (h2 : st.recs.Pairwise (fun r₁ r₂ => r₁.dicom_patient_id ≠ r₂.dicom_patient_id)) :
    (items.foldl (patientStep u f n) st).seen
        = (items.foldl (patientStep u f n) st).recs.map (·.dicom_patient_id)
    ∧ (items.foldl (patientStep u f n) st).recs.Pairwise
        (fun r₁ r₂ => r₁.dicom_patient_id ≠ r₂.dicom_patient_id) := by
  induction items generalizing st with
  | nil => exact ⟨h1, h2⟩
  | cons it rest ih =>
    rw [List.foldl_cons]
    obtain ⟨g1, g2⟩ := patientStep_inv u f n st it h1 h2
    exact ih _ g1 g2

/-- Claim C8 (confirmed): patient extraction emits at most one PatientRecord
per distinct `dicom_patient_id` (first occurrence wins, even across
different series); a file without a usable series identifier contributes no
patient record even when it carries a valid patient identifier; and a later
file with an already-recorded patient identifier adds nothing. -/
theorem C8_patient_dedup (u f n : String) (items : List DItem) (a : DAttrs) (p : String) :
    (extract_patient_data_from_dicom u f n items).Pairwise
        (fun r₁ r₂ => r₁.dicom_patient_id ≠ r₂.dicom_patient_id)
    ∧ (usableSeriesB a = false →
        extract_patient_data_from_dicom u f n (items ++ [DItem.file a])
          = extract_patient_data_from_dicom u f n items)
    ∧ (a.patientId = some p →
        p ∈ (extract_patient_data_from_dicom u f n items).map (·.dicom_patient_id) →
        extract_patient_data_from_dicom u f n (items ++ [DItem.file a])
          = extract_patient_data_from_dicom u f n items) := by
  refine ⟨?_, ?_, ?_⟩
  · exact (patientFold_inv u f n items ⟨[], 0, []⟩ rfl (by simp)).2
  · intro hun
    unfold extract_patient_data_from_dicom
    rw [List.foldl_append, List.foldl_cons, List.foldl_nil]
    cases hsid : a.seriesId with
    | none => simp [patientStep, hsid]
    | some sid =>
      have hg : sid = "" ∨ pyLower sid = "none" := by
        simp only [usableSeriesB, hsid, Bool.not_eq_false', Bool.or_eq_true,
          beq_iff_eq] at hun
        exact hun
      simp [patientStep, hsid, if_pos hg]
  · intro hp hmem
    unfold extract_patient_data_from_dicom
    rw [List.foldl_append, List.foldl_cons, List.foldl_nil]
    have hseen : (items.foldl (patientStep u f n) ⟨[], 0, []⟩).seen
        = (items.foldl (patientStep u f n) ⟨[], 0, []⟩).recs.map (·.dicom_patient_id) :=
      (patientFold_inv u f n items ⟨[], 0, []⟩ rfl (by simp)).1
    set st := items.foldl (patientStep u f n) ⟨[], 0, []⟩ with hst
    have hpseen : p ∈ st.seen := by
      rw [hseen]
      exact hmem
    cases hsid : a.seriesId with
    | none => simp [patientStep, hsid]
    | some sid =>
      by_cases hg : sid = "" ∨ pyLower sid = "none"
      · simp [patientStep, hsid, if_pos hg]
      · simp only [patientStep, hsid, if_neg hg]
        have hpid : a.patientId.getD ("ANON_" ++ freshUuid st.ctr) = p := by
          rw [hp]
          rfl
        rw [hpid, if_pos hpseen]

/-- Witness for C8: duplicate patient identifier across two different
series yields one record; a series-less file with a fresh patient identifier
contributes nothing. -/
theorem C8_patient_dedup_witness :
    (extract_patient_data_from_dicom "u" "f" "t" [DItem.file aGood]).Pairwise
        (fun r₁ r₂ => r₁.dicom_patient_id ≠ r₂.dicom_patient_id)
    ∧ extract_patient_data_from_dicom "u" "f" "t"
          ([DItem.file aGood] ++ [DItem.file aNoSeries])
        = extract_patient_data_from_dicom "u" "f" "t" [DItem.file aGood]
    ∧ extract_patient_data_from_dicom "u" "f" "t"
          ([DItem.file aGood] ++ [DItem.file aGoodOtherSeries])
        = extract_patient_data_from_dicom "u" "f" "t" [DItem.file aGood] :=
  ⟨(C8_patient_dedup "u" "f" "t" [DItem.file aGood] aNoSeries "P1").1,
   (C8_patient_dedup "u" "f" "t" [DItem.file aGood] aNoSeries "P1").2.1 (by decide),
   (C8_patient_dedup "u" "f" "t" [DItem.file aGood] aGoodOtherSeries "P1").2.2
     rfl (by decide)⟩

theorem pySplit_of_not_mem {l : List Char} {c : Char} (h : c ∉ l) :
    pySplit l c = [l] := by
  induction l with
  | nil => rfl
  | cons a rest ih =>
    have hac : a ≠ c := fun hh => h (hh ▸ List.mem_cons_self a rest)
    have hrest : c ∉ rest := fun hh => h (List.mem_cons_of_mem a hh)
    unfold pySplit
    rw [ih hrest]
    simp [hac]

theorem toList_ne_nil {s : String} (h : s ≠ "") : s.toList ≠ [] := by
  intro hnil
  apply h
  cases s
  simp [String.toList] at hnil
  simp [hnil]

/-- Claim C10 (corrected: fails for the empty name): for a usable file whose
present patient-name string is nonempty and contains no caret, the emitted
PatientRecord has `first_name = last_name = the whole name` — splitting a
caret-less string yields the same single token at both ends. -/
theorem C10_caretless_name (u f n s : String) (a : DAttrs)
    (h1 : a.patientName = some s) (h2 : usableSeriesB a = true)
    (h3 : '^' ∉ s.toList) (h4 : s ≠ "") :
    (extract_patient_data_from_dicom u f n [DItem.file a]).map
        (fun r => (r.first_name, r.last_name)) = [(s.toList, s.toList)] := by
  unfold extract_patient_data_from_dicom
  rw [List.foldl_cons, List.foldl_nil]
  cases hsid : a.seriesId with
  | none => simp [usableSeriesB, hsid] at h2
  | some sid =>
    have hg : ¬ (sid = "" ∨ pyLower sid = "none") := by
      simp only [usableSeriesB, hsid, Bool.not_eq_true', Bool.or_eq_false_iff,
        beq_eq_false_iff_ne, ne_eq] at h2
      rintro (hh | hh)
      · exact h2.1 hh
      · exact h2.2 hh
    have hsplit : pySplit (a.patientName.getD "ANONYMOUS^PATIENT").toList '^'
        = [s.toList] := by
      rw [h1]
      exact pySplit_of_not_mem h3
    have hne : (s.toList).isEmpty = false := by
      cases hls : s.toList with
      | nil => exact absurd hls (toList_ne_nil h4)
      | cons c cs => rfl
    simp only [patientStep, hsid, if_neg hg, hsplit, List.headD_cons,
      List.getLastD_cons, List.getLastD_nil, hne, Bool.false_eq_true, if_false,
      List.not_mem_nil, List.nil_append, List.map_cons, List.map_nil]

/-- Witness for C10 at the caret-less name "JOHN". -/
theorem C10_caretless_name_witness :
    (extract_patient_data_from_dicom "u" "f" "t" [DItem.file aJohn]).map
        (fun r => (r.first_name, r.last_name)) = [("JOHN".toList, "JOHN".toList)] :=
  C10_caretless_name "u" "f" "t" "JOHN" aJohn rfl (by decide) (by decide) (by decide)

/-- Counterexample to claim C10 as stated: a present but empty patient name
contains no caret, yet the emitted record has `first_name = "ANONYMOUS"` and
`last_name = "PATIENT"` — the two differ and neither equals the name. -/
theorem C10_empty_name_counterexample :
    (extract_patient_data_from_dicom "u" "f" "t" [DItem.file aEmptyName]).map
        (fun r => (r.first_name, r.last_name))
      = [("ANONYMOUS".toList, "PATIENT".toList)]
    ∧ "ANONYMOUS".toList ≠ "PATIENT".toList
    ∧ ("" : String).toList = [] := by
  refine ⟨by decide, by decide, by decide⟩

end Naviget
